import Mathlib

/-!
Shallow embedding of `src/v003/serve.py` (NeverEverLand v003 development
server): a `SimpleHTTPRequestHandler` subclass that appends CORS headers and a
JavaScript MIME override in `end_headers`, plus a `main` that changes into the
script's directory, binds TCP port 8000, prints a startup banner, and runs
`serve_forever` inside a `try/except KeyboardInterrupt`.

Pure request-handling pieces are embedded as functions on header lists; the
process-level control flow of `main` is embedded as a function from an
environment (script directory, invocation working directory, whether the port
is already bound, where an interrupt arrives) to an outcome (stdout lines,
termination, bind attempts, final working directory).  Behavior supplied by
the underlying `http.server` facility rather than by the repository's code is
modelled from the spec and marked as such in doc comments.
-/

namespace Serve

/-- The fixed listening port: `PORT = 8000` (serve.py line 13). -/
def PORT : Nat := 8000

/-- A response header, as produced by `send_header(name, value)`. -/
abbrev Header := String × String

/-- ASCII lower-casing of one character (for case-insensitive header names). -/
def lowerChar (c : Char) : Char :=
  if 'A' ≤ c ∧ c ≤ 'Z' then Char.ofNat (c.toNat + 32) else c

/-- Case-insensitive equality of HTTP header names. -/
def headerNameEq (a b : String) : Bool :=
  a.data.map lowerChar == b.data.map lowerChar

/-- The values of all `Content-Type` headers (case-insensitive name match)
appearing in a header block, in order. -/
def contentTypeValues (hs : List Header) : List String :=
  (hs.filter (fun h => headerNameEq h.1 "Content-Type")).map Prod.snd

/-- Python `str.endswith`, on the character sequence of the string. -/
def endswith (s suffix : String) : Bool :=
  suffix.data.isSuffixOf s.data

/-- The three CORS headers sent unconditionally by `CustomHandler.end_headers`
(serve.py lines 21-23). -/
def corsHeaders : List Header :=
  [("Access-Control-Allow-Origin", "*"),
   ("Access-Control-Allow-Methods", "GET, POST, OPTIONS"),
   ("Access-Control-Allow-Headers", "Content-Type")]

/-- The conditional JavaScript MIME override of `CustomHandler.end_headers`
(serve.py lines 26-27): one extra `Content-Type` header exactly when the raw
request path ends in `.js`. -/
def jsOverride (path : String) : List Header :=
  if endswith path ".js" then [("Content-Type", "text/javascript")] else []

/-- `CustomHandler.end_headers` (serve.py lines 19-29): given the headers
already buffered by `send_header` calls, append the three CORS headers, then
the JavaScript override when `self.path` ends in `.js`, and finalize.  The
result is the response's full header block.  `self.path` is the raw request
target, query string included. -/
def end_headers (path : String) (buffered : List Header) : List Header :=
  buffered ++ corsHeaders ++ jsOverride path

/-- An incoming HTTP request: client address, method, raw request path. -/
structure Request where
  client : String
  method : String
  path : String
deriving DecidableEq

/-- An HTTP response: status code, finalized header block, body. -/
structure Response where
  status : Nat
  headerBlock : List Header
  body : String
deriving DecidableEq

/-- Server configuration fixed at startup: listening port and root
directory. -/
structure ServerConfig where
  port : Nat
  root : String
deriving DecidableEq

/-- Python `s.split(c, 1)[0]`: the text before the first occurrence of `c`. -/
def takeUntilChar (c : Char) (s : String) : String :=
  String.mk (s.data.takeWhile (fun d => d ≠ c))

/-- Modelled from the spec: the underlying facility's `translate_path` drops
the query string and fragment from the request path before resolving it
against the root directory (`path.split('?',1)[0]` then `split('#',1)[0]`). -/
def stripQueryFragment (p : String) : String :=
  takeUntilChar '#' (takeUntilChar '?' p)

/-- A filesystem: maps a root directory and a (query-stripped) request path to
the content of the file found there, if any. -/
abbrev FileSystem := String → String → Option String

/-- The underlying facility's MIME inference from a file path (e.g. Python's
`mimetypes.guess_type`); implementation-dependent, so a parameter. -/
abbrev MimeGuess := String → String

/-- Modelled from the spec: the file lookup the underlying facility performs,
relative to the configured root directory. -/
def servedFile (cfg : ServerConfig) (fs : FileSystem) (req : Request) :
    Option String :=
  fs cfg.root (stripQueryFragment req.path)

/-- Modelled from the spec: the headers the facility buffers for a successful
file response (`send_head` sends the inferred `Content-type` and a
`Content-Length`). -/
def okHeaders (guess : MimeGuess) (filePath body : String) : List Header :=
  [("Content-type", guess filePath), ("Content-Length", Nat.repr body.length)]

/-- Modelled from the spec: the headers the facility buffers for a 404 error
response (`send_error` sends its own `Content-Type` and `Connection`). -/
def errorHeaders404 : List Header :=
  [("Content-Type", "text/html;charset=utf-8"), ("Connection", "close")]

/-- Modelled from the spec: the underlying file-serving facility resolves the
request path against the configured root, answers 200 with the file's content
when it exists and 404 when it does not, and finalizes every response's
headers through the handler's `end_headers` override. -/
def handleRequest (cfg : ServerConfig) (guess : MimeGuess) (fs : FileSystem)
    (req : Request) : Response :=
  match servedFile cfg fs req with
  | some content =>
      { status := 200
        headerBlock :=
          end_headers req.path
            (okHeaders guess (stripQueryFragment req.path) content)
        body := content }
  | none =>
      { status := 404
        headerBlock := end_headers req.path errorHeaders404
        body := "404 Not Found" }

/-- `CustomHandler.log_message` (serve.py lines 31-33): one line per request,
`[<client address>] <formatted message>`. -/
def requestLogLine (req : Request) (resp : Response) : String :=
  "[" ++ req.client ++ "] \x22" ++ req.method ++ " " ++ req.path ++ "\x22 " ++
    Nat.repr resp.status

/-- The server's per-process state: the startup configuration plus the log
emitted so far.  Request handling may append to the log only. -/
structure ServerState where
  config : ServerConfig
  log : List String
deriving DecidableEq

/-- Serving one request: produce the response and append one log line.  The
configuration is read, never written. -/
def serverStep (guess : MimeGuess) (fs : FileSystem) (s : ServerState)
    (req : Request) : ServerState × Response :=
  let resp := handleRequest s.config guess fs req
  ({ s with log := s.log ++ [requestLogLine req resp] }, resp)

/-- The serve loop's effect on server state over a list of requests. -/
def serveAll (guess : MimeGuess) (fs : FileSystem) (s : ServerState)
    (reqs : List Request) : ServerState :=
  reqs.foldl (fun st r => (serverStep guess fs st r).1) s

/-- The responses the serve loop produces for a list of requests: one per
request, none aborts the loop. -/
def serveResponses (cfg : ServerConfig) (guess : MimeGuess) (fs : FileSystem)
    (reqs : List Request) : List Response :=
  reqs.map (handleRequest cfg guess fs)

/-- Where, if anywhere, a `KeyboardInterrupt` is delivered to the process:
never; after the bind but before `serve_forever` is entered, with `printed`
banner lines already written (outside the `try` block); or inside
`serve_forever` (inside the `try` block). -/
inductive InterruptPoint where
  | never
  | duringStartup (printed : Nat)
  | duringServe
deriving DecidableEq

/-- The environment `main` runs in: the directory containing serve.py, the
process's working directory at invocation, whether port 8000 is already
bound, and where an interrupt arrives. -/
structure Env where
  scriptDir : String
  invocationCwd : String
  portInUse : Bool
  interrupt : InterruptPoint
deriving DecidableEq

/-- How the process ends: `sys.exit`-style exit with a code, an unhandled
exception (CPython prints a traceback to stderr and exits with status 1), or
still inside `serve_forever` with no interrupt ever arriving. -/
inductive Termination where
  | exited (code : Nat)
  | uncaughtError (message : String)
  | serving
deriving DecidableEq

/-- The process exit status a termination yields (`none` while serving). -/
def exitStatus : Termination → Option Nat
  | .exited c => some c
  | .uncaughtError _ => some 1
  | .serving => none

/-- The six lines `main` prints before entering `serve_forever`
(serve.py lines 39-44): banner/title, URL, directory, two instruction lines,
and a separator of 50 dashes. -/
def bannerLines (port : Nat) (cwd : String) : List String :=
  ["🚀 NeverEverLand v003 Server",
   "📡 Serving at http://localhost:" ++ Nat.repr port,
   "📁 Directory: " ++ cwd,
   "🎮 Open http://localhost:" ++ Nat.repr port ++ " in your browser",
   "⏹️  Press Ctrl+C to stop",
   String.mk (List.replicate 50 '-')]

/-- The shutdown notice printed by the `except KeyboardInterrupt` branch
(serve.py line 49). -/
def shutdownNotice : String := "\n🛑 Server stopped"

/-- The message of the unhandled exception raised by `TCPServer` when the
port is already bound. -/
def bindErrorMessage : String := "OSError: [Errno 98] Address already in use"

/-- The observable outcome of one run of `main`: stdout lines in order, how
the process ended, every port a bind was attempted on, and the process's
working directory after startup. -/
structure Outcome where
  stdout : List String
  termination : Termination
  bindAttempts : List Nat
  cwd : String
deriving DecidableEq

/-- The server configuration `main` establishes: the fixed port, and the
directory containing the script as root (`directory=Path(__file__).parent` in
`CustomHandler.__init__`, and `os.chdir(Path(__file__).parent)` in `main`).
The invocation-time working directory plays no part. -/
def startupConfig (env : Env) : ServerConfig :=
  { port := PORT, root := env.scriptDir }

/-- `main` (serve.py lines 35-50): change into the script's directory; bind
port 8000 (an already-bound port raises an `OSError` that nothing catches);
print the banner; run `serve_forever` inside `try/except KeyboardInterrupt`,
whose handler prints the shutdown notice and calls `sys.exit(0)`.  An
interrupt arriving before `serve_forever` is outside the `try` and is
uncaught. -/
def runMain (env : Env) : Outcome :=
  let cwd := env.scriptDir
  if env.portInUse then
    { stdout := []
      termination := .uncaughtError bindErrorMessage
      bindAttempts := [PORT]
      cwd := cwd }
  else
    match env.interrupt with
    | .duringStartup printed =>
        { stdout := (bannerLines PORT cwd).take printed
          termination := .uncaughtError "KeyboardInterrupt"
          bindAttempts := [PORT]
          cwd := cwd }
    | .never =>
        { stdout := bannerLines PORT cwd
          termination := .serving
          bindAttempts := [PORT]
          cwd := cwd }
    | .duringServe =>
        { stdout := bannerLines PORT cwd ++ [shutdownNotice]
          termination := .exited 0
          bindAttempts := [PORT]
          cwd := cwd }

/-! Concrete instances used to evaluate the embedding on explicit inputs. -/

/-- A concrete configuration: the fixed port and a sample script directory. -/
def cfgDemo : ServerConfig := { port := 8000, root := "/repo/v003" }

/-- A facility MIME inference that answers `application/javascript` for `.js`
files, as the spec notes some facilities do. -/
def guessDemo : MimeGuess :=
  fun p => if endswith p ".js" then "application/javascript" else "text/plain"

/-- A filesystem holding exactly one file, `/app.js`. -/
def fsDemo : FileSystem :=
  fun _ p => if p = "/app.js" then some "export default 1" else none

/-- A GET request for the existing file `/app.js`. -/
def reqJs : Request := { client := "127.0.0.1", method := "GET", path := "/app.js" }

/-- A GET request for `/app.js` with a query string appended. -/
def reqJsQuery : Request :=
  { client := "127.0.0.1", method := "GET", path := "/app.js?v=1" }

/-- A GET request for a `.js` path with no corresponding file. -/
def reqMissingJs : Request :=
  { client := "127.0.0.1", method := "GET", path := "/missing.js" }

/-- An environment whose port is already bound at startup. -/
def envBindFail : Env :=
  { scriptDir := "/repo/v003", invocationCwd := "/home/user",
    portInUse := true, interrupt := .never }

/-- An environment that serves undisturbed: free port, no interrupt. -/
def envNoInterrupt : Env :=
  { scriptDir := "/repo/v003", invocationCwd := "/home/user",
    portInUse := false, interrupt := .never }

/-- An environment interrupted inside the serve loop. -/
def envServeInterrupt : Env :=
  { scriptDir := "/repo/v003", invocationCwd := "/home/user",
    portInUse := false, interrupt := .duringServe }

/-- An environment interrupted after two banner lines, before the serve
loop. -/
def envEarlyInterrupt : Env :=
  { scriptDir := "/repo/v003", invocationCwd := "/home/user",
    portInUse := false, interrupt := .duringStartup 2 }

/-! Helper lemmas shared across the claim theorems. -/

/-- Every CORS header appears in any `end_headers` output. -/
theorem cors_mem_end_headers {h : Header} (path : String)
    (buffered : List Header) (hmem : h ∈ corsHeaders) :
    h ∈ end_headers path buffered :=
  show h ∈ (buffered ++ corsHeaders) ++ jsOverride path from
    List.mem_append.mpr (Or.inl (List.mem_append.mpr (Or.inr hmem)))

/-- Every CORS header appears in the header block of any response the
modelled facility produces through the handler. -/
theorem cors_mem_handleRequest {h : Header} (cfg : ServerConfig)
    (guess : MimeGuess) (fs : FileSystem) (req : Request)
    (hmem : h ∈ corsHeaders) :
    h ∈ (handleRequest cfg guess fs req).headerBlock := by
  unfold handleRequest
  cases servedFile cfg fs req with
  | some content => exact cors_mem_end_headers _ _ hmem
  | none => exact cors_mem_end_headers _ _ hmem

/-- `contentTypeValues` distributes over header-block concatenation. -/
theorem contentTypeValues_append (a b : List Header) :
    contentTypeValues (a ++ b) = contentTypeValues a ++ contentTypeValues b := by
  simp [contentTypeValues, List.filter_append]

/-- The directory banner line never equals the shutdown notice, whatever the
directory string is (their first characters differ). -/
theorem dirLine_ne_shutdownNotice (s : String) :
    "📁 Directory: " ++ s ≠ shutdownNotice := by
  intro h
  have h1 : ("📁 Directory: " ++ s).data.head? = some '📁' := rfl
  rw [h] at h1
  exact absurd h1 (by decide)

/-- The shutdown notice is not among the startup banner lines. -/
theorem shutdownNotice_not_in_bannerLines (cwd : String) :
    shutdownNotice ∉ bannerLines PORT cwd := by
  intro h
  simp only [bannerLines, List.mem_cons, List.not_mem_nil, or_false] at h
  rcases h with h | h | h | h | h | h
  · exact absurd h (by decide)
  · exact absurd h (by decide)
  · exact dirLine_ne_shutdownNotice cwd h.symm
  · exact absurd h (by decide)
  · exact absurd h (by decide)
  · exact absurd h (by decide)

/-- The final working directory after startup is the script's directory, on
every path through `main`. -/
theorem runMain_cwd (env : Env) : (runMain env).cwd = env.scriptDir := by
  obtain ⟨d, ic, pb, ip⟩ := env
  cases pb with
  | true => rfl
  | false => cases ip <;> rfl

/-! The claim theorems. -/

/-- C1: every response's header block — whatever the request path, the
buffered headers, the filesystem, the MIME inference, or the resulting
status — contains all three CORS headers: `Access-Control-Allow-Origin: *`,
`Access-Control-Allow-Methods: GET, POST, OPTIONS`, and
`Access-Control-Allow-Headers: Content-Type`. -/
theorem cors_headers_on_every_response (path : String) (buffered : List Header)
    (cfg : ServerConfig) (guess : MimeGuess) (fs : FileSystem) (req : Request) :
    (("Access-Control-Allow-Origin", "*") ∈ end_headers path buffered ∧
     ("Access-Control-Allow-Methods", "GET, POST, OPTIONS") ∈
       end_headers path buffered ∧
     ("Access-Control-Allow-Headers", "Content-Type") ∈
       end_headers path buffered) ∧
    (("Access-Control-Allow-Origin", "*") ∈
       (handleRequest cfg guess fs req).headerBlock ∧
     ("Access-Control-Allow-Methods", "GET, POST, OPTIONS") ∈
       (handleRequest cfg guess fs req).headerBlock ∧
     ("Access-Control-Allow-Headers", "Content-Type") ∈
       (handleRequest cfg guess fs req).headerBlock) :=
  ⟨⟨cors_mem_end_headers path buffered (by decide),
    cors_mem_end_headers path buffered (by decide),
    cors_mem_end_headers path buffered (by decide)⟩,
   cors_mem_handleRequest cfg guess fs req (by decide),
   cors_mem_handleRequest cfg guess fs req (by decide),
   cors_mem_handleRequest cfg guess fs req (by decide)⟩

/-- C2, counterexample: for the `.js` request `/app.js` against a facility
that infers `application/javascript`, the response's header block does not
carry `text/javascript` as its single Content-Type value: the override is
appended and the facility's inferred `Content-type` header survives, so the
block has two Content-Type headers with different values. -/
theorem js_content_type_not_single :
    ¬ (contentTypeValues (handleRequest cfgDemo guessDemo fsDemo reqJs).headerBlock =
        ["text/javascript"]) := by decide

/-- C2 (amended): for every request path ending in `.js`, `end_headers`
appends one `Content-Type: text/javascript` header after the buffered
headers; it is the last Content-Type header of the block, but any
facility-buffered Content-Type header remains, so the block can carry two. -/
theorem js_content_type_last_appended (path : String) (buffered : List Header)
    (hjs : endswith path ".js" = true) :
    contentTypeValues (end_headers path buffered) =
      contentTypeValues buffered ++ ["text/javascript"] ∧
    (contentTypeValues (end_headers path buffered)).getLast? =
      some "text/javascript" := by
  have h1 : contentTypeValues (end_headers path buffered) =
      contentTypeValues buffered ++ ["text/javascript"] := by
    show contentTypeValues ((buffered ++ corsHeaders) ++ jsOverride path) = _
    rw [contentTypeValues_append, contentTypeValues_append, jsOverride, hjs]
    simp [contentTypeValues, corsHeaders, headerNameEq, lowerChar]
  exact ⟨h1, by rw [h1]; exact List.getLast?_concat _⟩

/-- C2 witness: the amended theorem at path `/app.js` with no buffered
headers. -/
theorem js_content_type_last_appended_witness :
    contentTypeValues (end_headers "/app.js" []) =
      contentTypeValues [] ++ ["text/javascript"] ∧
    (contentTypeValues (end_headers "/app.js" [])).getLast? =
      some "text/javascript" :=
  js_content_type_last_appended "/app.js" [] (by decide)

/-- C3: when port 8000 is already bound, startup is fatal: the bind raises
an error nothing catches, the process's exit status is 1 (non-zero), the
error message is non-empty and human-readable, only one bind is attempted
and only on port 8000, and nothing is printed to stdout. -/
theorem bind_failure_is_fatal (env : Env) (h : env.portInUse = true) :
    (runMain env).termination = .uncaughtError bindErrorMessage ∧
    exitStatus (runMain env).termination = some 1 ∧
    bindErrorMessage ≠ "" ∧
    (runMain env).bindAttempts = [PORT] ∧
    (runMain env).stdout = [] := by
  refine ⟨?_, ?_, by decide, ?_, ?_⟩ <;> simp [runMain, h, exitStatus]

/-- C3 witness: the fatal-bind theorem at a concrete environment with the
port already bound. -/
theorem bind_failure_is_fatal_witness :
    (runMain envBindFail).termination = .uncaughtError bindErrorMessage ∧
    exitStatus (runMain envBindFail).termination = some 1 ∧
    bindErrorMessage ≠ "" ∧
    (runMain envBindFail).bindAttempts = [PORT] ∧
    (runMain envBindFail).stdout = [] :=
  bind_failure_is_fatal envBindFail rfl

/-- C4: a `KeyboardInterrupt` delivered inside the serve loop is caught: the
process leaves the serve loop (so it stops accepting connections), prints
the shutdown notice as its last stdout line, and exits with status 0. -/
theorem interrupt_during_serve_graceful (env : Env)
    (hp : env.portInUse = false) (hi : env.interrupt = .duringServe) :
    (runMain env).termination = .exited 0 ∧
    exitStatus (runMain env).termination = some 0 ∧
    (runMain env).stdout = bannerLines PORT env.scriptDir ++ [shutdownNotice] ∧
    (runMain env).termination ≠ .serving := by
  refine ⟨?_, ?_, ?_, ?_⟩ <;> simp [runMain, hp, hi, exitStatus]

/-- C4 witness: the graceful-shutdown theorem at a concrete environment
interrupted inside the serve loop. -/
theorem interrupt_during_serve_graceful_witness :
    (runMain envServeInterrupt).termination = .exited 0 ∧
    exitStatus (runMain envServeInterrupt).termination = some 0 ∧
    (runMain envServeInterrupt).stdout =
      bannerLines PORT envServeInterrupt.scriptDir ++ [shutdownNotice] ∧
    (runMain envServeInterrupt).termination ≠ .serving :=
  interrupt_during_serve_graceful envServeInterrupt rfl rfl

/-- C5: the root directory is the directory containing the script —
independent of the invocation-time working directory — the process's working
directory after startup equals it, and every file lookup resolves the
(query-stripped) request path against exactly that root. -/
theorem root_directory_from_script (env : Env) (d c1 c2 : String)
    (b1 b2 : Bool) (i1 i2 : InterruptPoint) (fs : FileSystem) (req : Request) :
    (startupConfig env).root = env.scriptDir ∧
    (runMain env).cwd = env.scriptDir ∧
    startupConfig
        { scriptDir := d, invocationCwd := c1, portInUse := b1, interrupt := i1 } =
      startupConfig
        { scriptDir := d, invocationCwd := c2, portInUse := b2, interrupt := i2 } ∧
    servedFile (startupConfig env) fs req =
      fs env.scriptDir (stripQueryFragment req.path) :=
  ⟨rfl, runMain_cwd env, rfl, rfl⟩

/-- C6: a request whose path has no corresponding file under the root gets a
404 response, and the serve loop still produces one response per request —
per-request failures never abort the loop. -/
theorem missing_file_yields_404 (cfg : ServerConfig) (guess : MimeGuess)
    (fs : FileSystem) (req : Request) (reqs : List Request)
    (h : servedFile cfg fs req = none) :
    (handleRequest cfg guess fs req).status = 404 ∧
    (serveResponses cfg guess fs reqs).length = reqs.length := by
  constructor
  · simp [handleRequest, h]
  · simp [serveResponses]

/-- C6 witness: the 404 theorem at the concrete missing file `/missing.js`
over the one-file filesystem. -/
theorem missing_file_yields_404_witness :
    (handleRequest cfgDemo guessDemo fsDemo reqMissingJs).status = 404 ∧
    (serveResponses cfgDemo guessDemo fsDemo [reqMissingJs, reqJs]).length =
      [reqMissingJs, reqJs].length :=
  missing_file_yields_404 cfgDemo guessDemo fsDemo reqMissingJs
    [reqMissingJs, reqJs] (by decide)

/-- C7: the server configuration is immutable: serving any sequence of
requests leaves the configuration unchanged, the configured port is the
fixed `PORT = 8000`, and the configured root is the script's directory. -/
theorem configuration_immutable (guess : MimeGuess) (fs : FileSystem)
    (s : ServerState) (reqs : List Request) (env : Env) :
    (serveAll guess fs s reqs).config = s.config ∧
    (startupConfig env).port = PORT ∧
    PORT = 8000 ∧
    (startupConfig env).root = env.scriptDir := by
  refine ⟨?_, rfl, rfl, rfl⟩
  induction reqs generalizing s with
  | nil => rfl
  | cons r rs ih => exact (ih ((serverStep guess fs s r).1)).trans rfl

/-- C8, counterexample: on an undisturbed startup the server prints 6 lines
before entering the serve loop, not 5 — the five informational lines plus a
separator line of 50 dashes. -/
theorem startup_banner_not_five_lines :
    ¬ ((runMain envNoInterrupt).stdout.length = 5) := by decide

/-- C8 (amended): before entering the serve loop the server prints exactly
six lines to stdout: the banner/title line, the URL line, the resolved
serving directory, two instruction lines, and a separator of 50 dashes. -/
theorem startup_prints_six_lines (env : Env)
    (hp : env.portInUse = false) (hi : env.interrupt = .never) :
    (runMain env).stdout = bannerLines PORT env.scriptDir ∧
    (runMain env).stdout.length = 6 ∧
    (runMain env).termination = .serving := by
  have hst : (runMain env).stdout = bannerLines PORT env.scriptDir := by
    simp [runMain, hp, hi]
  refine ⟨hst, ?_, by simp [runMain, hp, hi]⟩
  rw [hst]
  rfl

/-- C8 witness: the six-line banner theorem at a concrete undisturbed
environment. -/
theorem startup_prints_six_lines_witness :
    (runMain envNoInterrupt).stdout = bannerLines PORT envNoInterrupt.scriptDir ∧
    (runMain envNoInterrupt).stdout.length = 6 ∧
    (runMain envNoInterrupt).termination = .serving :=
  startup_prints_six_lines envNoInterrupt rfl rfl

/-- C9: the JavaScript override depends only on whether the raw request path
string ends in `.js`: `end_headers` is exactly the buffered headers plus the
CORS headers plus `jsOverride path`, and `jsOverride` is a function of that
suffix test alone; concretely, a 404 for the nonexistent `/missing.js` still
carries `Content-Type: text/javascript`, while `/app.js?v=1` — served with
status 200 — does not receive the override. -/
theorem js_override_depends_only_on_raw_path :
    (∀ path buffered, end_headers path buffered =
      buffered ++ corsHeaders ++ jsOverride path) ∧
    (∀ path, jsOverride path =
      if endswith path ".js" then [("Content-Type", "text/javascript")] else []) ∧
    ((handleRequest cfgDemo guessDemo fsDemo reqMissingJs).status = 404 ∧
      ("Content-Type", "text/javascript") ∈
        (handleRequest cfgDemo guessDemo fsDemo reqMissingJs).headerBlock) ∧
    ((handleRequest cfgDemo guessDemo fsDemo reqJsQuery).status = 200 ∧
      ("Content-Type", "text/javascript") ∉
        (handleRequest cfgDemo guessDemo fsDemo reqJsQuery).headerBlock) :=
  ⟨fun _ _ => rfl, fun _ => rfl, by decide, by decide⟩

/-- C10: a `KeyboardInterrupt` arriving after startup begins but before
`serve_forever` is entered is outside the `try` block: the process dies on
the uncaught exception, its exit status is not 0, and the shutdown notice is
never printed. -/
theorem interrupt_before_serve_uncaught (env : Env) (k : Nat)
    (hp : env.portInUse = false) (hi : env.interrupt = .duringStartup k) :
    (runMain env).termination = .uncaughtError "KeyboardInterrupt" ∧
    exitStatus (runMain env).termination ≠ some 0 ∧
    shutdownNotice ∉ (runMain env).stdout := by
  have hst : (runMain env).stdout = (bannerLines PORT env.scriptDir).take k := by
    simp [runMain, hp, hi]
  refine ⟨by simp [runMain, hp, hi], by simp [runMain, hp, hi, exitStatus], ?_⟩
  rw [hst]
  intro hmem
  exact shutdownNotice_not_in_bannerLines env.scriptDir
    (List.take_subset k _ hmem)

/-- C10 witness: the uncaught-early-interrupt theorem at a concrete
environment interrupted after two banner lines. -/
theorem interrupt_before_serve_uncaught_witness :
    (runMain envEarlyInterrupt).termination =
      .uncaughtError "KeyboardInterrupt" ∧
    exitStatus (runMain envEarlyInterrupt).termination ≠ some 0 ∧
    shutdownNotice ∉ (runMain envEarlyInterrupt).stdout :=
  interrupt_before_serve_uncaught envEarlyInterrupt 2 rfl rfl

end Serve
